import Mathlib

/-!
Verification of the Mediaforce proposal generator (`src/app.py`,
`src/assembler.py`) against its natural-language specification.

The Python source is shallowly embedded: each Python function used by a
claim is translated into an executable Lean definition operating on
`List Char` / `String`, `Nat` / `Int`, `Option` and `Except`-style results.
Machine behaviour that can fail (the `int('')` conversion inside
`parse_client_text`) is modelled with `Option`.
-/

namespace Proposal

/-! ## Pricing Calculator

Embedded from `src/app.py`.

* `generate_proposal_from_text`, lines 1143-1144 (AI-content path):
  `management_fee = min(899, budget // 3) if budget > 1500 else 499`
  `ad_spend = budget - management_fee`
* `generate_proposal_from_text`, lines 1170-1171 (free-text template path):
  `management_fee = 899 if budget < 3000 else 1200 if budget < 5000 else 1500`
  `ad_spend = budget - management_fee if budget > management_fee else 1500`
* `generate_simple_preview`, lines 1571-1573 (structured-form path):
  `retainer = ...; ad_spend = ...; total = retainer + ad_spend`
-/

/-- Tiered management fee of the free-text template path
(`src/app.py` line 1170). -/
def managementFeeTiered (budget : Nat) : Nat :=
  if budget < 3000 then 899 else if budget < 5000 then 1200 else 1500

/-- Ad spend of the free-text template path (`src/app.py` line 1171):
`budget - management_fee if budget > management_fee else 1500`. -/
def adSpendTiered (budget : Nat) : Nat :=
  if budget > managementFeeTiered budget then budget - managementFeeTiered budget else 1500

/-- Management fee of the AI-content path (`src/app.py` line 1143). -/
def managementFeeAI (budget : Nat) : Nat :=
  if budget > 1500 then min 899 (budget / 3) else 499

/-- Ad spend of the AI-content path (`src/app.py` line 1144); Python ints may
go negative here, so the result lives in `Int`. -/
def adSpendAI (budget : Nat) : Int :=
  (budget : Int) - managementFeeAI budget

/-- Lower-case substring test used by the service-flag computations,
modelling Python `needle in s.lower()`.  `findIdx` below gives Python
`str.find` restricted to a `none`/`some` result. -/
def findIdx (s pat : List Char) : Option Nat :=
  if pat.isPrefixOf s then some 0
  else
    match s with
    | [] => none
    | _ :: t => (findIdx t pat).map (· + 1)

/-- Python `pat in s` (substring containment). -/
def containsSub (s pat : List Char) : Bool :=
  (findIdx s pat).isSome

/-- Python `str.lower` (ASCII, as used by the source). -/
def lowerList (s : List Char) : List Char :=
  s.map Char.toLower

/-- `'google' in s.lower() or 'ads' in s.lower() or 'ppc' in s.lower()` for one
service string, from `build_proposal_with_ai_content` (`src/app.py` line 337). -/
def googleKeywordAI (s : List Char) : Bool :=
  containsSub (lowerList s) "google".data || containsSub (lowerList s) "ads".data ||
    containsSub (lowerList s) "ppc".data

/-- `'seo' in s.lower()` (`src/app.py` line 338). -/
def seoKeywordAI (s : List Char) : Bool :=
  containsSub (lowerList s) "seo".data

/-- `'social' ... or 'facebook' ... or 'instagram' ... or 'linkedin' ...`
(`src/app.py` line 339). -/
def socialKeywordAI (s : List Char) : Bool :=
  containsSub (lowerList s) "social".data || containsSub (lowerList s) "facebook".data ||
    containsSub (lowerList s) "instagram".data || containsSub (lowerList s) "linkedin".data

/-- `has_google_ads` of the AI-content document builder
(`build_proposal_with_ai_content`, `src/app.py` line 337). -/
def hasGoogleAdsAI (services : List String) : Bool :=
  services.any (fun s => googleKeywordAI s.data)

/-- `has_seo` of the AI-content document builder (`src/app.py` line 338). -/
def hasSeoAI (services : List String) : Bool :=
  services.any (fun s => seoKeywordAI s.data)

/-- `has_social` of the AI-content document builder (`src/app.py` line 339). -/
def hasSocialAI (services : List String) : Bool :=
  services.any (fun s => socialKeywordAI s.data)

/-- `seo_fee = 1100 if budget > 2000 else 799` (`src/app.py` line 354). -/
def seoFee (budget : Nat) : Nat := if budget > 2000 then 1100 else 799

/-- `social_fee = 800 if budget > 2000 else 599` (`src/app.py` line 363). -/
def socialFee (budget : Nat) : Nat := if budget > 2000 then 800 else 599

/-- The management fee / ad spend / displayed total of one generated pricing
block.  `total` is the monthly figure the rendered HTML presents. -/
structure PricingDisplay where
  fee : Int
  adSpend : Int
  total : Int
  deriving DecidableEq, Repr

/-- Pricing block of the free-text template path.  The rendered HTML at
`src/app.py` lines 1477-1483 shows `${budget:,}/month` as the price and the
management fee and ad spend as detail lines, so the presented total is the raw
budget. -/
def fallbackPricing (budget : Nat) : PricingDisplay :=
  { fee := managementFeeTiered budget
    adSpend := adSpendTiered budget
    total := budget }

/-- Pricing block of the AI-content path (`build_proposal_with_ai_content`,
`src/app.py` lines 344-391): `total_monthly` accumulates the management fee
only when Google Ads is flagged, plus conditional SEO and social fees, plus
the ad spend; the accumulated sum is displayed as
"Total Monthly Investment". -/
def aiPricing (budget : Nat) (services : List String) : PricingDisplay :=
  let fee : Int := managementFeeAI budget
  let ad : Int := adSpendAI budget
  { fee := fee
    adSpend := ad
    total :=
      (if hasGoogleAdsAI services then fee else 0) +
      (if hasSeoAI services then (seoFee budget : Int) else 0) +
      (if hasSocialAI services then (socialFee budget : Int) else 0) + ad }

/-- Pricing block of the structured-form path (`generate_simple_preview`,
`src/app.py` lines 1571-1576): `total = retainer + ad_spend`. -/
def structuredPricing (retainer adSpend : Int) : PricingDisplay :=
  { fee := retainer, adSpend := adSpend, total := retainer + adSpend }

/-! ## Spec-side pricing formulas (for the refinement claims C1/C2) -/

/-- As the spec words the tier rule: fee = 899 if budget < 3000; 1200 if
3000 ≤ budget < 5000; 1500 if budget ≥ 5000. -/
def specFeeTiered (budget : Nat) : Nat :=
  if budget < 3000 then 899 else if budget < 5000 then 1200 else 1500

/-- The ad-spend rule exactly as claim C2 words it: budget minus fee, clamped
to 1500 whenever the subtraction `budget - fee` would be ≤ fee. -/
def specAdSpendClaimed (budget : Nat) : Int :=
  if (budget : Int) - specFeeTiered budget ≤ (specFeeTiered budget : Int) then 1500
  else (budget : Int) - specFeeTiered budget

/-- The ad-spend rule amended to what the code implements: budget minus fee,
clamped to 1500 whenever the subtraction would be ≤ 0 (i.e. budget ≤ fee). -/
def specAdSpendAmended (budget : Nat) : Int :=
  if (budget : Int) - specFeeTiered budget ≤ 0 then 1500
  else (budget : Int) - specFeeTiered budget

/-! ## Section Extractor

Embedded from `extract_section` (`src/app.py` lines 971-1018). -/

/-- Python `str.find(pat, start)`: leftmost occurrence index at or after
`start`; `none` stands for Python's `-1`.  Like CPython, a `start` beyond the
end of the string yields no match even for the empty pattern. -/
def findFrom (s pat : List Char) (start : Nat) : Option Nat :=
  if start ≤ s.length then (findIdx (s.drop start) pat).map (· + start) else none

/-- Python `s[a:b]` for non-negative clamped indices. -/
def sliceList (s : List Char) (a b : Nat) : List Char :=
  (s.take b).drop a

/-- Whitespace as Python's `str.strip` / `\s` treat it (ASCII range). -/
def pyIsSpace (c : Char) : Bool :=
  c = ' ' || c = '\t' || c = '\n' || c = '\x0d' || c = '\x0b' || c = '\x0c'

/-- Python `str.strip()`. -/
def pyStrip (s : List Char) : List Char :=
  ((s.dropWhile pyIsSpace).reverse.dropWhile pyIsSpace).reverse

/-- Python `str.replace(pat, rep)` (all non-overlapping occurrences, left to
right), by fuel-bounded recursion; `replaceList` instantiates the fuel with
the length of the subject, which suffices because every step consumes at
least one character when the pattern is non-empty. -/
def replaceListAux (rep pat : List Char) : Nat → List Char → List Char
  | 0, s => s
  | _ + 1, [] => []
  | fuel + 1, c :: t =>
    if pat ≠ [] ∧ pat.isPrefixOf (c :: t) then
      rep ++ replaceListAux rep pat fuel ((c :: t).drop pat.length)
    else
      c :: replaceListAux rep pat fuel t

/-- Python `s.replace(pat, rep)` for a non-empty pattern. -/
def replaceList (s pat rep : List Char) : List Char :=
  replaceListAux rep pat s.length s

/-- Python `str.title()` (ASCII): the first letter of each alphabetic run is
upper-cased, the rest lower-cased. -/
def pyTitleAux : Bool → List Char → List Char
  | _, [] => []
  | prevAlpha, c :: t =>
    (if c.isAlpha then (if prevAlpha then c.toLower else c.toUpper) else c) ::
      pyTitleAux c.isAlpha t

/-- Python `str.title()`. -/
def pyTitle (s : List Char) : List Char := pyTitleAux false s

/-- Scan for the end of an HTML comment after its `<!--` opener, following the
regex `<!--[^>]*-->` of `src/app.py` line 1012: body characters may not be
`>`, and the match closes at `-->`.  Returns the number of characters
consumed (body plus the three closer characters) when the regex matches. -/
def commentClose : List Char → Option Nat
  | [] => none
  | c :: t =>
    if "-->".data.isPrefixOf (c :: t) then some 3
    else if c = '>' then none
    else (commentClose t).map (· + 1)

/-- Length of the regex match `<!--[^>]*-->` anchored at the head of `s`,
if any. -/
def matchCommentLen (s : List Char) : Option Nat :=
  if "<!--".data.isPrefixOf s then (commentClose (s.drop 4)).map (· + 4) else none

/-- One left-to-right pass of `re.sub(r'<!--[^>]*-->', '', section)`
(`src/app.py` line 1012), fuel-bounded. -/
def subCommentsAux : Nat → List Char → List Char
  | 0, s => s
  | _ + 1, [] => []
  | fuel + 1, c :: t =>
    match matchCommentLen (c :: t) with
    | some n => subCommentsAux fuel ((c :: t).drop n)
    | none => c :: subCommentsAux fuel t

/-- `re.sub(r'<!--[^>]*-->', '', section)`. -/
def subComments (s : List Char) : List Char :=
  subCommentsAux s.length s

/-- Does `s` contain a match of `<!--[^>]*-->` at any position? -/
def hasComment : List Char → Bool
  | [] => false
  | c :: t => (matchCommentLen (c :: t)).isSome || hasComment t

/-- The anchored heading regex `^<h[23][^>]*>[^<]*</h[23]>\s*` of
`src/app.py` line 1016 (`re.IGNORECASE`): if it matches a prefix of `s`,
return the remainder after the match (the `\s*` is greedy). -/
def headMatch (s : List Char) : Option (List Char) :=
  match s with
  | '<' :: h :: d :: rest =>
    if h.toLower = 'h' ∧ (d = '2' ∨ d = '3') then
      match rest.dropWhile (· != '>') with
      | '>' :: afterOpen =>
        match afterOpen.dropWhile (· != '<') with
        | '<' :: '/' :: h2 :: d2 :: '>' :: afterClose =>
          if h2.toLower = 'h' ∧ (d2 = '2' ∨ d2 = '3') then
            some (afterClose.dropWhile pyIsSpace)
          else none
        | _ => none
      | _ => none
    else none
  | _ => none

/-- `re.sub(r'^<h[23][^>]*>[^<]*</h[23]>\s*', '', section, flags=re.IGNORECASE)`:
strip a leading h2/h3 element (and trailing whitespace) if present. -/
def headStrip (s : List Char) : List Char :=
  (headMatch s).getD s

/-- The three-tier start-marker search of `extract_section` (`src/app.py`
lines 976-988): first `'<!-- SECTION: ' + marker`, then `'<!-- ' + marker`,
then a case-insensitive search for the marker with underscores replaced by
spaces (in that branch the Python code sets `start_pattern` to the
title-cased marker, whose length is what later arithmetic uses).  Returns the
start index together with the `start_pattern` value in effect. -/
def startSearch (c marker : List Char) : Option (Nat × List Char) :=
  match findIdx c ("<!-- SECTION: ".data ++ marker) with
  | some i => some (i, "<!-- SECTION: ".data ++ marker)
  | none =>
    match findIdx c ("<!-- ".data ++ marker) with
    | some i => some (i, "<!-- ".data ++ marker)
    | none =>
      match findIdx (lowerList c) (lowerList (replaceList marker ['_'] [' '])) with
      | some i => some (i, pyTitle (replaceList marker ['_'] [' ']))
      | none => none

/-- The three-tier end-marker search of `extract_section` (`src/app.py`
lines 993-1006): the first two tiers scan from `start_idx +
len(start_pattern)`, the third from `start_idx + 50`; every failure falls
through, ending at `len(content)`. -/
def endSearch (c em : List Char) (si patLen : Nat) : Nat :=
  match findFrom c ("<!-- SECTION: ".data ++ em) (si + patLen) with
  | some i => i
  | none =>
    match findFrom c ("<!-- ".data ++ em) (si + patLen) with
    | some i => i
    | none =>
      match findFrom (lowerList c) (lowerList (replaceList em ['_'] [' '])) (si + 50) with
      | some i => i
      | none => c.length

/-- End index of the extracted section: `len(content)` when `end_marker` is
`None` or empty (Python truthiness of `if end_marker:`). -/
def endIndex (c : List Char) (endM : Option (List Char)) (si patLen : Nat) : Nat :=
  match endM with
  | some em => if em ≠ [] then endSearch c em si patLen else c.length
  | none => c.length

/-- The raw slice `content[start_idx:end_idx]` selected by `extract_section`
before cleaning, `none` when all three start searches fail. -/
def rawSlice (c marker : List Char) (endM : Option (List Char)) : Option (List Char) :=
  match startSearch c marker with
  | none => none
  | some (si, pat) => some (sliceList c si (endIndex c endM si pat.length))

/-- `'<p>Content generation in progress...</p>'` (`src/app.py` line 974). -/
def progressPlaceholder : String := "<p>Content generation in progress...</p>"

/-- `'<p>Section content not available.</p>'` (`src/app.py` lines 990, 1018). -/
def notAvailPlaceholder : String := "<p>Section content not available.</p>"

/-- `extract_section` (`src/app.py` lines 971-1018) on character lists.
`content = none` models Python `None`; `if not content` also catches the
empty string. -/
def extractSectionL (content : Option (List Char)) (marker : List Char)
    (endM : Option (List Char)) : List Char :=
  match content with
  | none => progressPlaceholder.data
  | some c =>
    if c = [] then progressPlaceholder.data
    else
      match rawSlice c marker endM with
      | none => notAvailPlaceholder.data
      | some s0 =>
        let s3 := headStrip (pyStrip (subComments s0))
        if s3 = [] then notAvailPlaceholder.data else s3

/-- `extract_section` on strings. -/
def extractSection (content : Option String) (marker : String)
    (endM : Option String) : String :=
  ⟨extractSectionL (content.map String.data) marker.data (endM.map String.data)⟩

/-! ## Free-Text Parser

Embedded from `parse_client_text` (`src/app.py` lines 236-330). -/

/-- The parsed client record built up by `parse_client_text` (the `data`
dict initialised at `src/app.py` lines 240-252). -/
structure ClientData where
  company : List Char := []
  industry : List Char := []
  location : List Char := []
  budget : List Char := []
  contact : List Char := []
  website : List Char := []
  audience : List Char := []
  challenges : List (List Char) := []
  goals : List (List Char) := []
  services : List (List Char) := []
  competitors : List (List Char) := []
  deriving DecidableEq, Repr

/-- The `current_section` cursor of the line loop. -/
inductive Cursor
  | challenges | goals | services | competitors | audience
  deriving DecidableEq, Repr

/-- Loop state: the record under construction plus the cursor. -/
structure ParseState where
  data : ClientData := {}
  cur : Option Cursor := none
  deriving DecidableEq, Repr

/-- `any(x in lower for x in keys)`. -/
def anyKey (lower : List Char) (keys : List String) : Bool :=
  keys.any (fun k => containsSub lower k.data)

/-- `re.sub(r'^[^:]+:\s*', '', line)` (`src/app.py` line 266 and friends):
strip a leading non-empty run of non-colon characters, the colon, and any
following whitespace; if the line has no such prefix it is returned
unchanged. -/
def stripHeaderPrefix (line : List Char) : List Char :=
  let pre := line.takeWhile (· != ':')
  if pre ≠ [] ∧ pre.length < line.length then
    (line.drop (pre.length + 1)).dropWhile pyIsSpace
  else line

/-- `re.split(r'[,;]', text)`. -/
def splitCommaSemi : List Char → List (List Char)
  | [] => [[]]
  | c :: t =>
    if c = ',' ∨ c = ';' then [] :: splitCommaSemi t
    else
      match splitCommaSemi t with
      | [] => [[c]]
      | h :: r => (c :: h) :: r

/-- Python `text.split('\n')`. -/
def splitNewline : List Char → List (List Char)
  | [] => [[]]
  | c :: t =>
    if c = '\n' then [] :: splitNewline t
    else
      match splitNewline t with
      | [] => [[c]]
      | h :: r => (c :: h) :: r

/-- `[s.strip() for s in re.split(r'[,;]', services_text) if s.strip()]`
(`src/app.py` line 295). -/
def parseServicesList (txt : List Char) : List (List Char) :=
  ((splitCommaSemi txt).map pyStrip).filter (· ≠ [])

/-- One iteration of the line loop of `parse_client_text` (`src/app.py`
lines 257-316): strip the line, skip if empty, then run the
header / topic / bullet / continuation `elif` chain in source order. -/
def parseLine (st : ParseState) (rawLine : List Char) : ParseState :=
  let line := pyStrip rawLine
  if line = [] then st
  else
    let lower := lowerList line
    if anyKey lower ["company:", "business:", "client:", "name:"] then
      { st with data.company := stripHeaderPrefix line, cur := none }
    else if anyKey lower ["industry:", "sector:"] then
      { st with data.industry := stripHeaderPrefix line, cur := none }
    else if anyKey lower ["location:", "city:", "address:"] then
      { st with data.location := stripHeaderPrefix line, cur := none }
    else if anyKey lower ["budget:", "investment:", "spend:"] then
      { st with data.budget := stripHeaderPrefix line, cur := none }
    else if anyKey lower ["website:", "url:", "site:"] then
      { st with data.website := stripHeaderPrefix line, cur := none }
    else if anyKey lower ["contact:", "email:", "phone:"] then
      { st with data.contact := stripHeaderPrefix line, cur := none }
    else if anyKey lower ["audience:", "target:", "customer"] then
      { st with
        data.audience := if containsSub line [':'] then stripHeaderPrefix line else st.data.audience
        cur := some .audience }
    else if anyKey lower ["challenge", "problem", "pain", "issue", "struggle"] then
      { st with cur := some .challenges }
    else if anyKey lower ["goal", "objective", "target", "want", "aim"] then
      { st with cur := some .goals }
    else if anyKey lower ["service", "need", "looking for", "interest"] then
      { st with
        data.services :=
          if containsSub line [':'] then parseServicesList (stripHeaderPrefix line)
          else st.data.services
        cur := some .services }
    else if anyKey lower ["competitor", "competition"] then
      { st with cur := some .competitors }
    else if line.head? = some '-' ∨ line.head? = some '•' ∨ line.head? = some '*' then
      let item := pyStrip (line.dropWhile (fun c => c = '-' || c = '•' || c = '*' || c = ' '))
      match st.cur with
      | some .challenges => { st with data.challenges := st.data.challenges ++ [item] }
      | some .goals => { st with data.goals := st.data.goals ++ [item] }
      | some .services => { st with data.services := st.data.services ++ [item] }
      | some .competitors => { st with data.competitors := st.data.competitors ++ [item] }
      | _ => st
    else
      match st.cur with
      | some .challenges => { st with data.challenges := st.data.challenges ++ [line] }
      | some .goals => { st with data.goals := st.data.goals ++ [line] }
      | _ => st

/-- Is the character a digit or a comma (the class `[\d,]`)? -/
def isDigitComma (c : Char) : Bool := c.isDigit || c = ','

/-- Leftmost match of `re.search(r'\$?([\d,]+)', budget)`, returning group 1
(`src/app.py` line 318): at each position a digit-or-comma run matches
directly, and a `$` immediately followed by such a run matches with the run
as the group. -/
def budgetGroup : List Char → Option (List Char)
  | [] => none
  | c :: t =>
    if isDigitComma c then some ((c :: t).takeWhile isDigitComma)
    else if c = '$' ∧ (t.head?.map isDigitComma).getD false then some (t.takeWhile isDigitComma)
    else budgetGroup t

/-- Numeric value of a digit string (`int(...)` on a non-empty digit list). -/
def digitsVal (ds : List Char) : Nat :=
  ds.foldl (fun n c => 10 * n + (c.toNat - 48)) 0

/-- Budget-number extraction of `parse_client_text` (`src/app.py` lines
317-324).  `none` models the uncaught `ValueError` of `int('')`, which
happens when the matched group consists solely of commas. -/
def extractBudgetNum (budget : List Char) : Option Nat :=
  if budget = [] then some 2500
  else
    match budgetGroup budget with
    | none => some 2500
    | some g =>
      let ds := replaceList g [','] []
      if ds = [] then none else some (digitsVal ds)

/-- `parse_client_text` (`src/app.py` lines 236-330): fold the line loop over
`text.strip().split('\n')`, then extract the budget number and default the
services list.  Returns the final record together with `budget_num`; `none`
models the parse crashing with `ValueError`. -/
def parseClientTextL (text : List Char) : Option (ClientData × Nat) :=
  let st := (splitNewline (pyStrip text)).foldl parseLine {}
  match extractBudgetNum st.data.budget with
  | none => none
  | some bn =>
    some ({ st.data with
            services :=
              if st.data.services = [] then ["Google Ads".data, "SEO".data]
              else st.data.services }, bn)

/-- `parse_client_text` on strings. -/
def parseClientText (text : String) : Option (ClientData × Nat) :=
  parseClientTextL text.data

/-! ## Service flags of the free-text template path

Embedded from `generate_proposal_from_text` (`src/app.py` lines 1164-1180).
The keyword sets here differ slightly from the AI-content path's
(`sem`, `organic`, `search engine opt` appear only here). -/

/-- `has_google_ads` raw keyword test of the template path
(`src/app.py` line 1164). -/
def googleKeywordFB (s : List Char) : Bool :=
  containsSub (lowerList s) "google".data || containsSub (lowerList s) "ads".data ||
    containsSub (lowerList s) "ppc".data || containsSub (lowerList s) "sem".data

/-- `has_seo` raw keyword test of the template path (`src/app.py` line 1165). -/
def seoKeywordFB (s : List Char) : Bool :=
  containsSub (lowerList s) "seo".data || containsSub (lowerList s) "organic".data ||
    containsSub (lowerList s) "search engine opt".data

/-- `has_social` raw keyword test of the template path (`src/app.py` line 1166). -/
def socialKeywordFB (s : List Char) : Bool :=
  containsSub (lowerList s) "social".data || containsSub (lowerList s) "facebook".data ||
    containsSub (lowerList s) "instagram".data || containsSub (lowerList s) "linkedin".data

/-- The three service flags of the template path after the default rule of
`src/app.py` lines 1178-1180: if no category matched, Google Ads and SEO are
both enabled. -/
def fallbackFlags (services : List (List Char)) : Bool × Bool × Bool :=
  let g := services.any googleKeywordFB
  let s := services.any seoKeywordFB
  let soc := services.any socialKeywordFB
  if ¬g ∧ ¬s ∧ ¬soc then (true, true, false) else (g, s, soc)

/-! ## Template Assembler

Embedded from `ProposalAssembler.assemble` (`src/assembler.py` lines 21-78).
The two reads of the wall clock (`datetime.now().strftime('%Y-%m-%d')` as the
default proposal date, `datetime.now().year` for the `YEAR` token) are made
explicit inputs `nowDate` and `nowYear`. -/

/-- Python `s.replace(pat, rep)` on strings. -/
def replaceStr (s pat rep : String) : String :=
  ⟨replaceList s.data pat.data rep.data⟩

/-- The argument dict of `assemble`: metadata scalars and section fragments,
each optional exactly as `dict.get` treats them. -/
structure AssembleData where
  client_name : Option String := none
  proposal_type : Option String := none
  analyst : Option String := none
  proposal_date : Option String := none
  executive_summary : Option String := none
  your_business : Option String := none
  competitive_analysis : Option String := none
  strategy : Option String := none
  success_metrics : Option String := none
  timeline : Option String := none
  investment : Option String := none
  next_steps : Option String := none
  deriving DecidableEq, Repr

/-- `ProposalAssembler.assemble` (`src/assembler.py` lines 21-78): replace the
metadata placeholder tokens, then the eight slot comments, then inline the
CSS. -/
def assemble (template css : String) (d : AssembleData) (nowYear nowDate : String) : String :=
  let h := template
  let h := replaceStr h "\x7b\x7bCLIENT\x7d\x7d" (d.client_name.getD "Client Name")
  let h := replaceStr h "\x7b\x7bPROPOSAL_TYPE\x7d\x7d" (d.proposal_type.getD "Digital Marketing Proposal")
  let h := replaceStr h "\x7b\x7bANALYST\x7d\x7d" (d.analyst.getD "The Mediaforce Team")
  let h := replaceStr h "\x7b\x7bPROPOSAL_DATE\x7d\x7d" (d.proposal_date.getD nowDate)
  let h := replaceStr h "\x7b\x7bYEAR\x7d\x7d" nowYear
  let h := replaceStr h "<!-- SLOT: EXECUTIVE_SUMMARY -->"
    (d.executive_summary.getD "<p>Executive summary not generated</p>")
  let h := replaceStr h "<!-- SLOT: YOUR_BUSINESS -->"
    (d.your_business.getD "<p>Your business section not generated</p>")
  let h := replaceStr h "<!-- SLOT: COMPETITIVE_ANALYSIS -->"
    (d.competitive_analysis.getD "<p>Competitive analysis not generated</p>")
  let h := replaceStr h "<!-- SLOT: STRATEGY -->"
    (d.strategy.getD "<p>Strategy section not generated</p>")
  let h := replaceStr h "<!-- SLOT: SUCCESS_METRICS -->"
    (d.success_metrics.getD "<p>Success metrics not generated</p>")
  let h := replaceStr h "<!-- SLOT: TIMELINE -->"
    (d.timeline.getD "<p>Timeline not generated</p>")
  let h := replaceStr h "<!-- SLOT: INVESTMENT -->"
    (d.investment.getD "<p>Investment section not generated</p>")
  let h := replaceStr h "<!-- SLOT: NEXT_STEPS -->"
    (d.next_steps.getD "<p>Next steps not generated</p>")
  replaceStr h "<link rel=\"stylesheet\" href=\"proposal.css\">" ("<style>" ++ css ++ "</style>")

/-! ## Full free-text pipeline and its two documents

Embedded from `generate_proposal_from_text` (`src/app.py` lines 1127-1504)
and `build_proposal_with_ai_content` (`src/app.py` lines 333-968).  The
generated HTML is modelled as its list of `<h2>`-level sections, each with
the section's textual content items in document order; fixed chrome (CSS,
navigation, header/footer markup) carries no claim-relevant information. -/

/-- One `<h2>`-level section of a generated document. -/
structure DocSection where
  title : String
  body : List String
  deriving DecidableEq, Repr

/-- Decimal digits of a natural number (fuel-bounded). -/
def natDigitsAux : Nat → Nat → List Char
  | 0, _ => []
  | fuel + 1, n =>
    if n < 10 then [Char.ofNat (48 + n)]
    else natDigitsAux fuel (n / 10) ++ [Char.ofNat (48 + n % 10)]

/-- Decimal digits of a natural number. -/
def natDigits (n : Nat) : List Char := natDigitsAux (n + 1) n

/-- Insert thousands separators into a reversed digit list. -/
def commaGroupAux : Nat → List Char → List Char
  | _, [] => []
  | k, c :: t =>
    if k = 2 ∧ t ≠ [] then c :: ',' :: commaGroupAux 0 t else c :: commaGroupAux (k + 1) t

/-- Python `'{:,}'.format(n)` for a natural number, as the `${x:,}` f-string
conversions of the source use it. -/
def fmtComma (n : Nat) : String :=
  ⟨(commaGroupAux 0 (natDigits n).reverse).reverse⟩

/-- The section markers `generate_ai_proposal` requires of the AI output and
`build_proposal_with_ai_content` extracts (`src/app.py` lines 1094-1115,
841-942). -/
def requiredSections : List String :=
  ["EXECUTIVE SUMMARY", "UNDERSTANDING YOUR BUSINESS", "YOUR GOALS",
   "OUR STRATEGY", "IMPLEMENTATION", "INVESTMENT", "NEXT STEPS"]

/-- The `<h2>` titles of the template-only (fallback) document, in order
(`src/app.py` lines 1333, 1357, 1384, 1435, 1470, 1492). -/
def fallbackSectionTitles : List String :=
  ["Understanding Your Business", "Your Vision for Success", "Our Approach & Strategy",
   "Implementation Timeline", "Your Investment", "Ready to Get Started?"]

/-- The template-only document of `generate_proposal_from_text`
(`src/app.py` lines 1182-1504), as its sections.  `flags` is
`(has_google_ads, has_seo, has_social)` after the default rule. -/
def fallbackDoc (company industry location : String) (challenges goals : List String)
    (budget : Nat) (flags : Bool × Bool × Bool) : List DocSection :=
  [ { title := "Understanding Your Business"
      body := [company] ++
        (if industry ≠ "" then ["Industry: " ++ industry] else []) ++
        (if location ≠ "" then ["Location: " ++ location] else []) ++
        ["Current Challenges"] ++ challenges.take 5 }
  , { title := "Your Vision for Success"
      body := ["Short-Term Goals"] ++ goals.take 3 ++
        ["Long-Term Vision", "Sustainable growth and market leadership",
         "Strong digital brand presence", "Predictable lead generation"] }
  , { title := "Our Approach & Strategy"
      body :=
        (if flags.1 then
          ["Google Ads Management", "Strategic keyword targeting",
           "Compelling ad copy creation", "Landing page optimization",
           "Conversion tracking setup", "Ongoing bid optimization"] else []) ++
        (if flags.2.1 then
          ["AI-Friendly SEO", "Technical SEO audit & fixes", "Content optimization",
           "Local SEO enhancement", "Link building outreach", "Monthly ranking reports"]
         else []) ++
        (if flags.2.2 then
          ["Paid Social Media", "Facebook & Instagram Ads", "LinkedIn advertising",
           "Audience targeting", "Creative development", "Performance optimization"]
         else []) }
  , { title := "Implementation Timeline"
      body := ["Week 1", "Discovery & Setup",
        "Kickoff call, account access, tracking setup, strategy alignment",
        "Week 2", "Strategy & Creative",
        "Campaign structure, keyword research, ad copy development",
        "Week 3", "Launch & Optimize",
        "Campaign launch, initial optimizations, performance monitoring",
        "Ongoing", "Continuous Improvement",
        "Weekly optimizations, A/B testing, scaling winning campaigns"] }
  , { title := "Your Investment"
      body := ["$" ++ fmtComma budget ++ "/month",
        "Management Fee: $" ++ fmtComma (managementFeeTiered budget) ++ "/mo",
        "Ad Spend: $" ++ fmtComma (adSpendTiered budget) ++ "/mo",
        "Includes full campaign management, creative services, weekly reporting, and dedicated account support."] }
  , { title := "Ready to Get Started?"
      body := ["Let's schedule a call to discuss your goals and answer any questions.",
        "📧 jbon@mediaforce.ca", "📞 613 265 2120", "🌐 mediaforce.ca"] } ]

/-- The AI-content document of `build_proposal_with_ai_content`
(`src/app.py` lines 836-958), as its sections; each AI-backed section body is
the corresponding `extract_section` result. -/
def aiDocSections (aiContent : String) : List DocSection :=
  [ { title := "Executive Summary"
      body := [extractSection (some aiContent) "EXECUTIVE SUMMARY" (some "UNDERSTANDING YOUR BUSINESS")] }
  , { title := "Understanding Your Business"
      body := [extractSection (some aiContent) "UNDERSTANDING YOUR BUSINESS" (some "YOUR GOALS")] }
  , { title := "Your Goals & Vision for Success"
      body := [extractSection (some aiContent) "YOUR GOALS" (some "OUR STRATEGY")] }
  , { title := "Our Strategy & Approach"
      body := [extractSection (some aiContent) "OUR STRATEGY" (some "IMPLEMENTATION")] }
  , { title := "Implementation Timeline"
      body := [extractSection (some aiContent) "IMPLEMENTATION" (some "INVESTMENT")] }
  , { title := "Investment & Pricing"
      body := ["Your Monthly Investment",
        extractSection (some aiContent) "INVESTMENT" (some "NEXT STEPS")] }
  , { title := "About Mediaforce"
      body := ["Your Digital Growth Partner", "Why Choose Mediaforce?",
        "Client Reference", "Contact Information"] }
  , { title := "Next Steps"
      body := [extractSection (some aiContent) "NEXT STEPS" none,
        "Let's Build Your Lead Generation Engine"] } ]

/-- `generate_proposal_from_text` (`src/app.py` lines 1127-1504) as a section
pipeline.  `aiContent` is the Content Generation Client's result:
`generate_ai_proposal` returns `None` when the client library is absent, the
API key is unconfigured, or the service call raises, so `none` models every
failure mode of the client.  The overall result is `none` only when
`parse_client_text` itself crashes. -/
def generateFromTextModel (text : String) (aiContent : Option String) :
    Option (List DocSection) :=
  (parseClientText text).map fun p =>
    match aiContent with
    | some c => aiDocSections c
    | none =>
      let data := p.1
      let company : String := if data.company = [] then "Your Company" else ⟨data.company⟩
      let industry : String := if data.industry = [] then "Your Industry" else ⟨data.industry⟩
      let location : String := ⟨data.location⟩
      let challenges : List String :=
        if data.challenges = [] then
          ["Increase online visibility", "Generate more leads", "Improve conversion rates"]
        else data.challenges.map fun l => ⟨l⟩
      let goals : List String :=
        if data.goals = [] then
          ["Grow website traffic", "Increase qualified leads", "Boost revenue"]
        else data.goals.map fun l => ⟨l⟩
      fallbackDoc company industry location challenges goals p.2 (fallbackFlags data.services)

/-! ## Helper lemmas -/

/-- A string whose first character differs from `t`'s cannot equal `t`,
whatever is appended after it. -/
theorem mk_cons_append_ne {c c' : Char} {l m : List Char} {x : String}
    (h : c ≠ c') : (⟨c :: l⟩ : String) ++ x ≠ ⟨c' :: m⟩ := by
  intro he
  have hd := congrArg String.data he
  simp only [String.data_append] at hd
  exact h (List.head_eq_of_cons_eq hd)

/-- Successful comment-close scans survive appending input on the right. -/
theorem commentClose_append {l : List Char} {n : Nat} (v : List Char)
    (h : commentClose l = some n) : (commentClose (l ++ v)).isSome := by
  induction l generalizing n with
  | nil => simp [commentClose] at h
  | cons c t ih =>
    rw [commentClose] at h
    rw [List.cons_append, commentClose]
    by_cases hp : "-->".data.isPrefixOf (c :: t) = true
    · have : "-->".data <+: (c :: t) ++ v :=
        (List.isPrefixOf_iff_prefix.mp hp).trans (List.prefix_append _ _)
      rw [List.cons_append] at this
      simp [List.isPrefixOf_iff_prefix.mpr this]
    · rw [if_neg hp] at h
      by_cases hc : c = '>'
      · simp [hc] at h
      · rw [if_neg hc] at h
        rcases Option.map_eq_some'.mp h with ⟨m, hm, _⟩
        rcases Option.isSome_iff_exists.mp (ih hm) with ⟨m', hm'⟩
        by_cases hp2 : ("-->".data.isPrefixOf (c :: (t ++ v)) : Prop)
        · simp [hp2]
        · simp [hp2, hc, hm']

/-- Successful head-anchored comment matches survive appending on the right. -/
theorem matchCommentLen_append {s : List Char} (v : List Char)
    (h : (matchCommentLen s).isSome) : (matchCommentLen (s ++ v)).isSome := by
  rw [matchCommentLen] at h
  by_cases hp : "<!--".data.isPrefixOf s = true
  · rw [hp, if_pos rfl] at h
    rcases Option.isSome_iff_exists.mp h with ⟨n, hn⟩
    rcases Option.map_eq_some'.mp hn with ⟨m, hm, _⟩
    have hlen : 4 ≤ s.length := by
      simpa using (List.isPrefixOf_iff_prefix.mp hp).length_le
    have hpre : "<!--".data <+: s ++ v :=
      (List.isPrefixOf_iff_prefix.mp hp).trans (List.prefix_append _ _)
    rw [matchCommentLen, if_pos (List.isPrefixOf_iff_prefix.mpr hpre),
      List.drop_append_of_le_length hlen]
    rcases Option.isSome_iff_exists.mp (commentClose_append v hm) with ⟨m', hm'⟩
    simp [hm']
  · simp [hp] at h

/-- A comment occurrence survives appending on the right. -/
theorem hasComment_append_right {t : List Char} (v : List Char)
    (h : hasComment t = true) : hasComment (t ++ v) = true := by
  induction t with
  | nil => simp [hasComment] at h
  | cons c t' ih =>
    rw [hasComment, Bool.or_eq_true] at h
    rw [List.cons_append, hasComment, Bool.or_eq_true]
    rcases h with h | h
    · exact Or.inl (by simpa [List.cons_append] using matchCommentLen_append v h)
    · exact Or.inr (ih h)

/-- A comment occurrence survives prepending on the left. -/
theorem hasComment_append_left (u : List Char) {t : List Char}
    (h : hasComment t = true) : hasComment (u ++ t) = true := by
  induction u with
  | nil => simpa using h
  | cons c u' ih =>
    rw [List.cons_append, hasComment, Bool.or_eq_true]
    exact Or.inr ih

/-- Comment occurrence is monotone under taking superstrings. -/
theorem hasComment_mono {t s : List Char} (h : t <:+: s)
    (hc : hasComment t = true) : hasComment s = true := by
  rcases h with ⟨u, v, rfl⟩
  rw [List.append_assoc]
  exact hasComment_append_left u (hasComment_append_right v hc)

/-- `pyStrip` yields a contiguous substring of its input. -/
theorem pyStrip_sublist (s : List Char) : pyStrip s <:+: s := by
  have h1 : s.dropWhile pyIsSpace <:+ s := List.dropWhile_suffix pyIsSpace
  have h2 : (s.dropWhile pyIsSpace).reverse.dropWhile pyIsSpace <:+
      (s.dropWhile pyIsSpace).reverse := List.dropWhile_suffix pyIsSpace
  have h3 : pyStrip s <+: s.dropWhile pyIsSpace := by
    rw [pyStrip]
    have hb : ((s.dropWhile pyIsSpace).reverse.dropWhile pyIsSpace).reverse <+:
        ((s.dropWhile pyIsSpace).reverse).reverse := List.reverse_prefix.mpr h2
    simpa using hb
  exact h3.isInfix.trans h1.isInfix

/-- The remainder returned by a successful `headMatch` is a suffix of the
input. -/
theorem headMatch_suffix {s r : List Char} (h : headMatch s = some r) :
    r <:+ s := by
  unfold headMatch at h
  split at h
  case h_1 h1 d rest =>
    split at h
    · split at h
      case h_1 afterOpen heq =>
        split at h
        case h_1 h2 d2 afterClose heq2 =>
          split at h
          · injection h with h
            subst h
            have s1 : afterClose.dropWhile pyIsSpace <:+ afterClose :=
              List.dropWhile_suffix pyIsSpace
            have s2 : afterClose <:+ afterOpen.dropWhile (· != '<') := by
              rw [heq2]
              exact (List.suffix_cons _ _).trans ((List.suffix_cons _ _).trans
                ((List.suffix_cons _ _).trans ((List.suffix_cons _ _).trans
                  (List.suffix_cons _ _))))
            have s3 : afterOpen.dropWhile (· != '<') <:+ afterOpen :=
              List.dropWhile_suffix _
            have s4 : afterOpen <:+ rest := by
              have h5 : afterOpen <:+ rest.dropWhile (· != '>') := by
                rw [heq]; exact List.suffix_cons _ _
              exact h5.trans (List.dropWhile_suffix _)
            have s5 : rest <:+ '<' :: h1 :: d :: rest :=
              (List.suffix_cons _ _).trans ((List.suffix_cons _ _).trans
                (List.suffix_cons _ _))
            exact s1.trans (s2.trans (s3.trans (s4.trans s5)))
          · simp at h
        case h_2 => simp at h
      case h_2 => simp at h
    · simp at h
  case h_2 => simp at h

/-- `headStrip` yields a contiguous substring of its input. -/
theorem headStrip_sublist (s : List Char) : headStrip s <:+: s := by
  rw [headStrip]
  cases hm : headMatch s with
  | none => simp
  | some r => simpa using (headMatch_suffix hm).isInfix

/-! ## Claim theorems -/

/-- **C1, counterexample.**  The claim asserts `total_monthly ==
management_fee + ad_spend` for every budget on every path.  On the free-text
template path with budget 800, the document presents $800/month as the total
while showing a management fee of $899 and an ad spend of $1,500
(`src/app.py` lines 1170-1171, 1478-1481): 800 ≠ 899 + 1500. -/
theorem pricing_invariant_cex :
    (fallbackPricing 800).total ≠ (fallbackPricing 800).fee + (fallbackPricing 800).adSpend := by
  decide

/-- **C1 (amended).**  The pricing invariant `total == fee + ad_spend` holds
(i) unconditionally on the structured-form path, (ii) on the free-text
template path exactly when the budget exceeds the tiered management fee (the
1500 ad-spend floor otherwise breaks it), and (iii) on the AI-content path
when Google Ads is the only fee-carrying service category (an SEO or social
match adds its own fee into the displayed total). -/
theorem pricing_invariant_amended :
    (∀ r a : Int, (structuredPricing r a).total = r + a) ∧
    (∀ budget : Nat, managementFeeTiered budget < budget →
      (fallbackPricing budget).total =
        (fallbackPricing budget).fee + (fallbackPricing budget).adSpend) ∧
    (∀ (budget : Nat) (services : List String),
      hasGoogleAdsAI services = true → hasSeoAI services = false →
      hasSocialAI services = false →
      (aiPricing budget services).total =
        (aiPricing budget services).fee + (aiPricing budget services).adSpend) := by
  refine ⟨fun r a => rfl, ?_, ?_⟩
  · intro b h
    simp only [fallbackPricing, adSpendTiered, if_pos h]
    omega
  · intro b svc hg hs hsoc
    simp [aiPricing, hg, hs, hsoc]

/-- **C1, witness.** -/
theorem pricing_invariant_amended_witness :
    (structuredPricing 899 1500).total = 899 + 1500 ∧
    (fallbackPricing 4000).total = (fallbackPricing 4000).fee + (fallbackPricing 4000).adSpend ∧
    (aiPricing 4000 ["Google Ads"]).total =
      (aiPricing 4000 ["Google Ads"]).fee + (aiPricing 4000 ["Google Ads"]).adSpend :=
  ⟨pricing_invariant_amended.1 899 1500,
   pricing_invariant_amended.2.1 4000 (by decide),
   pricing_invariant_amended.2.2 4000 ["Google Ads"] (by decide) (by decide) (by decide)⟩

/-- **C2, counterexample.**  The claim clamps the ad spend to 1500 whenever
`budget - fee ≤ fee`.  At budget 1500 the code takes the `budget > fee`
branch and returns `1500 - 899 = 601`, while the claimed rule would clamp
(601 ≤ 899) and return 1500. -/
theorem tiered_pricing_cex :
    ((adSpendTiered 1500 : Int) ≠ specAdSpendClaimed 1500) ∧ adSpendTiered 1500 = 601 := by
  decide

/-- **C2 (amended).**  The tier thresholds are as claimed, and the ad spend
is `budget - fee` clamped to 1500 exactly when the subtraction would be ≤ 0
(that is, when `budget ≤ fee`), not when it would be ≤ fee. -/
theorem tiered_pricing_amended (budget : Nat) :
    managementFeeTiered budget = specFeeTiered budget ∧
    (adSpendTiered budget : Int) = specAdSpendAmended budget := by
  refine ⟨rfl, ?_⟩
  simp only [adSpendTiered, specAdSpendAmended, managementFeeTiered, specFeeTiered]
  split_ifs <;> omega

/-- **C2, witness.** -/
theorem tiered_pricing_amended_witness :
    managementFeeTiered 4000 = specFeeTiered 4000 ∧
    (adSpendTiered 4000 : Int) = specAdSpendAmended 4000 :=
  tiered_pricing_amended 4000

/-- **C3.**  `extract_section` is total: the result is never the empty
string; a `None` or empty `content` yields the fixed in-progress
placeholder; and if all three start-marker searches miss, the result is the
fixed not-available placeholder. -/
theorem extract_section_total (content : Option String) (marker : String)
    (endM : Option String) :
    extractSection content marker endM ≠ "" ∧
    ((content = none ∨ content = some "") →
      extractSection content marker endM = progressPlaceholder) ∧
    (∀ c : String, content = some c → c ≠ "" →
      startSearch c.data marker.data = none →
      extractSection content marker endM = notAvailPlaceholder) := by
  refine ⟨?_, ?_, ?_⟩
  · cases content with
    | none =>
      have h : extractSection none marker endM = progressPlaceholder := rfl
      rw [h]; decide
    | some c =>
      show (⟨extractSectionL (some c.data) marker.data (endM.map String.data)⟩ : String) ≠ ""
      rw [extractSectionL]
      by_cases hc : c.data = []
      · rw [if_pos hc]; decide
      · rw [if_neg hc]
        cases hr : rawSlice c.data marker.data (endM.map String.data) with
        | none => decide
        | some s0 =>
          by_cases h3 : headStrip (pyStrip (subComments s0)) = []
          · simp only [h3, if_pos rfl]; decide
          · simp only [if_neg h3]
            intro he
            exact h3 (by simpa using congrArg String.data he)
  · rintro (rfl | rfl) <;> rfl
  · rintro c rfl hne hss
    show (⟨extractSectionL (some c.data) marker.data (endM.map String.data)⟩ : String) =
      notAvailPlaceholder
    rw [extractSectionL]
    have hc : c.data ≠ [] := fun h => hne (by
      have := congrArg String.mk h
      simpa using this)
    rw [if_neg hc]
    simp [rawSlice, hss, notAvailPlaceholder]

/-- **C3, witness.** -/
theorem extract_section_total_witness :
    extractSection (some "hello") "A" none ≠ "" ∧
    extractSection none "A" none = progressPlaceholder ∧
    extractSection (some "zz") "A" none = notAvailPlaceholder :=
  ⟨(extract_section_total (some "hello") "A" none).1,
   (extract_section_total none "A" none).2.1 (Or.inl rfl),
   (extract_section_total (some "zz") "A" none).2.2 "zz" rfl (by decide) (by decide)⟩

/-- **C4.**  The claim says `parse_client_text` never fails, but the budget
line `budget: ,` makes it crash: the field value `,` matches
`\$?([\d,]+)` with group `,`, the commas are stripped, and `int('')`
raises `ValueError` (`src/app.py` lines 317-321).  The embedded parser
returns `none` (= uncaught exception) on exactly that input. -/
theorem parse_client_text_crash : parseClientText "budget: ," = none := by decide

/-- **C5, counterexample.**  The claim determines the output by (template,
css, fragments, metadata) alone, but `assemble` also reads the wall clock:
with template `{{YEAR}}` and identical arguments, calls observing year 2025
and year 2026 give different bytes (`src/assembler.py` line 32). -/
theorem assemble_deterministic_cex :
    assemble "\x7b\x7bYEAR\x7d\x7d" "" {} "2025" "2025-01-06" ≠
      assemble "\x7b\x7bYEAR\x7d\x7d" "" {} "2026" "2026-01-06" := by
  decide

/-- **C5 (amended).**  `assemble` is a pure function of template, css,
fragments, metadata and the observed clock; with the year fixed, the
observed date can only enter through the `PROPOSAL_DATE` default, so two
calls agree whenever the metadata supplies `proposal_date`, even at
different call dates. -/
theorem assemble_deterministic_amended (template css : String) (d : AssembleData)
    (nowYear date1 date2 pd : String) (h : d.proposal_date = some pd) :
    assemble template css d nowYear date1 = assemble template css d nowYear date2 := by
  simp [assemble, h]

/-- **C5, witness.** -/
theorem assemble_deterministic_amended_witness :
    assemble "t" "c" { proposal_date := some "2025-11-04" } "2025" "2025-11-04" =
      assemble "t" "c" { proposal_date := some "2025-11-04" } "2025" "2025-12-01" :=
  assemble_deterministic_amended "t" "c" { proposal_date := some "2025-11-04" }
    "2025" "2025-11-04" "2025-12-01" "2025-11-04" rfl

/-- Dropping while a predicate holds skips a block that satisfies it
entirely. -/
theorem dropWhile_append_of_all {p : Char → Bool} {xs : List Char} (ys : List Char)
    (h : ∀ c ∈ xs, p c = true) : (xs ++ ys).dropWhile p = ys.dropWhile p := by
  induction xs with
  | nil => rfl
  | cons c t ih =>
    rw [List.cons_append, List.dropWhile_cons, if_pos (h c (by simp))]
    exact ih fun c hc => h c (by simp [hc])

/-- Strings whose first characters differ are different. -/
theorem ne_of_head_ne {s t : String} (h : s.data.head? ≠ t.data.head?) : s ≠ t :=
  fun he => h (congrArg (fun u => u.data.head?) he)

/-- First character of an appended string. -/
theorem append_head {pre : String} (x : String) {c : Char}
    (h : pre.data.head? = some c) : (pre ++ x).data.head? = some c := by
  rw [String.data_append]
  simp [List.head?_append, h]

/-- A string starting with a character other than `<` differs from both
`extract_section` placeholders (each starts with `<p>`). -/
theorem ne_placeholders_of_head {s : String} {c : Char} (h : s.data.head? = some c)
    (hc : c ≠ '<') : s ≠ progressPlaceholder ∧ s ≠ notAvailPlaceholder := by
  have h1 : progressPlaceholder.data.head? = some '<' := rfl
  have h2 : notAvailPlaceholder.data.head? = some '<' := rfl
  constructor
  · exact ne_of_head_ne (by rw [h, h1]; simpa using hc)
  · exact ne_of_head_ne (by rw [h, h2]; simpa using hc)

/-- Membership in a conditional singleton block. -/
theorem mem_of_mem_ite_nil {α : Type} {p : Prop} [Decidable p] {l : List α} {a : α}
    (h : a ∈ (if p then l else [])) : a ∈ l := by
  split at h
  · exact h
  · cases h

/-- **C7, counterexample.**  The claim removes a leading heading only when
its text duplicates the section title.  Here the fragment's leading heading
reads "Something Else" — not the section title "INTRO" — yet the anchored
regex `^<h[23][^>]*>[^<]*</h[23]>\s*` at `src/app.py` line 1016 removes it
unconditionally. -/
theorem heading_removal_cex :
    extractSection (some "<!-- SECTION: INTRO --><h2>Something Else</h2><p>Body</p>")
      "INTRO" none = "<p>Body</p>" := by
  decide

/-- **C7 (amended).**  In section-extraction post-processing, any leading
h2/h3 element (here with `<`-free text content) is removed together with the
whitespace after it, irrespective of what its text says: the removal does not
consult the section title at all. -/
theorem heading_removal_amended (txt rest : List Char) (h : ∀ c ∈ txt, (c != '<') = true) :
    headStrip ('<' :: 'h' :: '2' :: '>' :: (txt ++ ('<' :: '/' :: 'h' :: '2' :: '>' :: rest))) =
      rest.dropWhile pyIsSpace := by
  have hd : (txt ++ ('<' :: '/' :: 'h' :: '2' :: '>' :: rest)).dropWhile (· != '<') =
      ('<' :: '/' :: 'h' :: '2' :: '>' :: rest).dropWhile (· != '<') :=
    dropWhile_append_of_all _ h
  rw [List.dropWhile_cons_of_neg (by decide)] at hd
  simp +decide [headStrip, headMatch, List.dropWhile_cons_of_neg, hd]

/-- **C7, witness.** -/
theorem heading_removal_amended_witness :
    headStrip ('<' :: 'h' :: '2' :: '>' ::
        ("Some Other Title".data ++ ('<' :: '/' :: 'h' :: '2' :: '>' :: " <p>x</p>".data))) =
      " <p>x</p>".data.dropWhile pyIsSpace :=
  heading_removal_amended "Some Other Title".data " <p>x</p>".data (by decide)

/-- **C8, counterexample.**  On the budget field value `,` the regex
`\$?([\d,]+)` does match (group `,`), so instead of the claimed default 2500
the code strips the commas and crashes in `int('')` — modelled as `none`. -/
theorem budget_parsing_cex :
    extractBudgetNum ",".data ≠ some 2500 ∧ extractBudgetNum ",".data = none := by
  decide

/-- **C8 (amended).**  Budget parsing behaves as claimed whenever the matched
digit-or-comma run contains at least one digit or no run exists: `$2,500`,
`2500` and `Budget: $3,000/month` give 2500, 2500, 3000; the empty field and
any field without a digit-or-comma run give exactly 2500.  (A run consisting
solely of commas instead raises, see the counterexample.) -/
theorem budget_parsing_amended :
    extractBudgetNum "$2,500".data = some 2500 ∧
    extractBudgetNum "2500".data = some 2500 ∧
    extractBudgetNum "Budget: $3,000/month".data = some 3000 ∧
    extractBudgetNum "".data = some 2500 ∧
    (∀ s : List Char, budgetGroup s = none → extractBudgetNum s = some 2500) := by
  refine ⟨by decide, by decide, by decide, by decide, ?_⟩
  intro s hnone
  rw [extractBudgetNum]
  by_cases hs : s = []
  · rw [if_pos hs]
  · rw [if_neg hs, hnone]

/-- **C8, witness.** -/
theorem budget_parsing_amended_witness : extractBudgetNum "abc".data = some 2500 :=
  budget_parsing_amended.2.2.2.2 "abc".data (by decide)

/-- **C9, counterexample.**  The claim says no parsed service list leaves all
three category flags false in a generated document, but the AI-content
document builder (`src/app.py` lines 337-339) applies no default: the service
list `["content marketing"]` matches none of the keyword sets and all three
flags stay false there. -/
theorem service_default_cex :
    hasGoogleAdsAI ["content marketing"] = false ∧
    hasSeoAI ["content marketing"] = false ∧
    hasSocialAI ["content marketing"] = false := by
  decide

/-- **C9 (amended).**  The documented default exists only on the free-text
template path (`src/app.py` lines 1178-1180): there, whenever no service
string matches any of the google/seo/social keyword sets, both
`has_google_ads` and `has_seo` are forced on. -/
theorem service_default_amended (services : List (List Char))
    (hg : services.any googleKeywordFB = false)
    (hs : services.any seoKeywordFB = false)
    (hsoc : services.any socialKeywordFB = false) :
    fallbackFlags services = (true, true, false) := by
  simp [fallbackFlags, hg, hs, hsoc]

/-- **C9, witness.** -/
theorem service_default_amended_witness :
    fallbackFlags ["content marketing".data] = (true, true, false) :=
  service_default_amended ["content marketing".data] (by decide) (by decide) (by decide)

/-- **C10, counterexample.**  One pass of `re.sub(r'<!--[^>]*-->', '', ...)`
can splice the surrounding text into a fresh comment: extracting section `A`
from `<!-- SECTION: A --><!<!-- b -->-- c -->tail` returns
`<!-- c -->tail`, which still contains a full `<!-- ... -->` comment whose
body has no `>`. -/
theorem comment_stripping_cex :
    extractSection (some "<!-- SECTION: A --><!<!-- b -->-- c -->tail") "A" none =
      "<!-- c -->tail" ∧
    hasComment (extractSection (some "<!-- SECTION: A --><!<!-- b -->-- c -->tail")
      "A" none).data = true := by
  decide

/-- **C10 (amended).**  All comments are removed by a single left-to-right
non-overlapping pass over the extracted slice; whenever that one pass leaves
a comment-free string, the returned fragment is comment-free too (the later
strip and heading-removal steps only take contiguous substrings, and the
placeholder returns contain no comment). -/
theorem comment_stripping_amended (c marker : List Char) (endM : Option (List Char))
    (s0 : List Char) (h0 : rawSlice c marker endM = some s0)
    (h1 : hasComment (subComments s0) = false) :
    hasComment (extractSectionL (some c) marker endM) = false := by
  rw [extractSectionL]
  by_cases hc : c = []
  · rw [if_pos hc]; decide
  · rw [if_neg hc, h0]
    by_cases h3 : headStrip (pyStrip (subComments s0)) = []
    · simp only [h3, if_pos rfl]; decide
    · simp only [if_neg h3]
      by_contra hcc
      have ht : hasComment (headStrip (pyStrip (subComments s0))) = true := by
        simpa using hcc
      have := hasComment_mono
        ((headStrip_sublist (pyStrip (subComments s0))).trans (pyStrip_sublist (subComments s0)))
        ht
      rw [h1] at this
      cases this

/-- **C10, witness.** -/
theorem comment_stripping_amended_witness :
    hasComment (extractSectionL (some "<!-- SECTION: A --><p>hi</p>".data)
      "A".data none) = false :=
  comment_stripping_amended "<!-- SECTION: A --><p>hi</p>".data "A".data none
    "<!-- SECTION: A --><p>hi</p>".data (by decide) (by decide)

/-- `fallbackFlags` never leaves all three flags false. -/
theorem fallbackFlags_ne_false (services : List (List Char)) :
    fallbackFlags services ≠ (false, false, false) := by
  rw [fallbackFlags]
  split
  · simp
  · next h =>
    intro he
    rw [Prod.mk.injEq, Prod.mk.injEq] at he
    exact h ⟨by simp [he.1], by simp [he.2.1], by simp [he.2.2]⟩

/-- Completeness of the template-only document: its sections are exactly the
six fallback titles, and every section body is non-empty and free of the two
extractor placeholder strings as long as the client-supplied company,
challenge and goal strings are. -/
theorem fallbackDoc_sections_complete (company industry location : String)
    (challenges goals : List String) (budget : Nat) (flags : Bool × Bool × Bool)
    (hflag : flags ≠ (false, false, false))
    (hcomp : company ≠ progressPlaceholder ∧ company ≠ notAvailPlaceholder)
    (hch : ∀ s ∈ challenges, s ≠ progressPlaceholder ∧ s ≠ notAvailPlaceholder)
    (hg : ∀ s ∈ goals, s ≠ progressPlaceholder ∧ s ≠ notAvailPlaceholder) :
    (fallbackDoc company industry location challenges goals budget flags).map DocSection.title
      = fallbackSectionTitles ∧
    ∀ sec ∈ fallbackDoc company industry location challenges goals budget flags,
      sec.body ≠ [] ∧ ∀ b ∈ sec.body, b ≠ progressPlaceholder ∧ b ≠ notAvailPlaceholder := by
  constructor
  · rfl
  · intro sec hsec
    rw [fallbackDoc] at hsec
    simp only [List.mem_cons, List.not_mem_nil, or_false] at hsec
    rcases hsec with rfl | rfl | rfl | rfl | rfl | rfl
    · refine ⟨by simp, ?_⟩
      intro b hb
      rcases List.mem_append.mp hb with hb | hb
      · rcases List.mem_append.mp hb with hb | hb
        · rcases List.mem_append.mp hb with hb | hb
          · rcases List.mem_append.mp hb with hb | hb
            · have hbc : b = company := by simpa using hb
              subst hbc; exact hcomp
            · have h2 : b = "Industry: " ++ industry := by
                simpa using mem_of_mem_ite_nil hb
              subst h2
              exact ne_placeholders_of_head (append_head industry rfl) (by decide)
          · have h2 : b = "Location: " ++ location := by
              simpa using mem_of_mem_ite_nil hb
            subst h2
            exact ne_placeholders_of_head (append_head location rfl) (by decide)
        · exact (by decide : ∀ x ∈ ["Current Challenges"],
            x ≠ progressPlaceholder ∧ x ≠ notAvailPlaceholder) b hb
      · exact hch b (List.mem_of_mem_take hb)
    · refine ⟨by simp, ?_⟩
      intro b hb
      rcases List.mem_append.mp hb with hb | hb
      · rcases List.mem_append.mp hb with hb | hb
        · exact (by decide : ∀ x ∈ ["Short-Term Goals"],
            x ≠ progressPlaceholder ∧ x ≠ notAvailPlaceholder) b hb
        · exact hg b (List.mem_of_mem_take hb)
      · exact (by decide :
          ∀ x ∈ ["Long-Term Vision", "Sustainable growth and market leadership",
            "Strong digital brand presence", "Predictable lead generation"],
            x ≠ progressPlaceholder ∧ x ≠ notAvailPlaceholder) b hb
    · constructor
      · rcases flags with ⟨g, s, soc⟩
        cases g <;> cases s <;> cases soc <;> simp_all
      · intro b hb
        have hmem : b ∈ (["Google Ads Management", "Strategic keyword targeting",
            "Compelling ad copy creation", "Landing page optimization",
            "Conversion tracking setup", "Ongoing bid optimization",
            "AI-Friendly SEO", "Technical SEO audit & fixes", "Content optimization",
            "Local SEO enhancement", "Link building outreach", "Monthly ranking reports",
            "Paid Social Media", "Facebook & Instagram Ads", "LinkedIn advertising",
            "Audience targeting", "Creative development", "Performance optimization"] :
            List String) := by
          simp only [List.mem_cons, List.not_mem_nil, or_false]
          rcases List.mem_append.mp hb with hb | hb
          · rcases List.mem_append.mp hb with hb | hb
            · have := mem_of_mem_ite_nil hb
              simp only [List.mem_cons, List.not_mem_nil, or_false] at this
              tauto
            · have := mem_of_mem_ite_nil hb
              simp only [List.mem_cons, List.not_mem_nil, or_false] at this
              tauto
          · have := mem_of_mem_ite_nil hb
            simp only [List.mem_cons, List.not_mem_nil, or_false] at this
            tauto
        exact (by decide : ∀ x ∈ (["Google Ads Management", "Strategic keyword targeting",
            "Compelling ad copy creation", "Landing page optimization",
            "Conversion tracking setup", "Ongoing bid optimization",
            "AI-Friendly SEO", "Technical SEO audit & fixes", "Content optimization",
            "Local SEO enhancement", "Link building outreach", "Monthly ranking reports",
            "Paid Social Media", "Facebook & Instagram Ads", "LinkedIn advertising",
            "Audience targeting", "Creative development", "Performance optimization"] :
            List String),
            x ≠ progressPlaceholder ∧ x ≠ notAvailPlaceholder) b hmem
    · refine ⟨by simp, ?_⟩
      intro b hb
      exact (by decide :
        ∀ x ∈ ["Week 1", "Discovery & Setup",
          "Kickoff call, account access, tracking setup, strategy alignment",
          "Week 2", "Strategy & Creative",
          "Campaign structure, keyword research, ad copy development",
          "Week 3", "Launch & Optimize",
          "Campaign launch, initial optimizations, performance monitoring",
          "Ongoing", "Continuous Improvement",
          "Weekly optimizations, A/B testing, scaling winning campaigns"],
          x ≠ progressPlaceholder ∧ x ≠ notAvailPlaceholder) b hb
    · refine ⟨by simp, ?_⟩
      intro b hb
      simp only [List.mem_cons, List.not_mem_nil, or_false] at hb
      rcases hb with rfl | rfl | rfl | rfl
      · exact ne_placeholders_of_head (append_head _ (append_head _ rfl)) (by decide)
      · exact ne_placeholders_of_head (append_head _ (append_head _ rfl)) (by decide)
      · exact ne_placeholders_of_head (append_head _ (append_head _ rfl)) (by decide)
      · exact ⟨by decide, by decide⟩
    · refine ⟨by simp, ?_⟩
      intro b hb
      exact (by decide :
        ∀ x ∈ ["Let's schedule a call to discuss your goals and answer any questions.",
          "📧 jbon@mediaforce.ca", "📞 613 265 2120", "🌐 mediaforce.ca"],
          x ≠ progressPlaceholder ∧ x ≠ notAvailPlaceholder) b hb

/-- **C6, counterexample.**  With the Content Generation Client failed, the
pipeline produces the template-only document — but that document has no
Executive Summary section in any form, although EXECUTIVE SUMMARY is one of
the seven required sections: the template-only path is not complete with
respect to the required section set. -/
theorem fallback_completeness_cex :
    (generateFromTextModel "Company: Acme\nBudget: $800" none).map
        (fun doc => doc.map DocSection.title) = some fallbackSectionTitles ∧
    "EXECUTIVE SUMMARY" ∈ requiredSections ∧
    fallbackSectionTitles.all
      (fun t => !containsSub (lowerList t.data) (lowerList "EXECUTIVE SUMMARY".data)) = true := by
  refine ⟨by decide, by decide, by decide⟩

/-- **C6 (amended).**  When the Content Generation Client fails (`aiContent =
none`), the pipeline still returns a document without propagating any error
(provided the free-text parse itself succeeded), and that document consists
of exactly the six fallback sections, each non-empty and free of the
extractor placeholder strings whenever the client-supplied company,
challenge and goal strings are; the fallback document however has no
Executive Summary section, so it is complete only for its own six-section
template, not for the seven required AI sections. -/
theorem fallback_completeness_amended (text : String) (d : ClientData) (bn : Nat)
    (hp : parseClientText text = some (d, bn))
    (hclean : ∀ l ∈ d.company :: (d.challenges ++ d.goals),
      (⟨l⟩ : String) ≠ progressPlaceholder ∧ (⟨l⟩ : String) ≠ notAvailPlaceholder) :
    ∃ doc, generateFromTextModel text none = some doc ∧
      doc.map DocSection.title = fallbackSectionTitles ∧
      ∀ sec ∈ doc, sec.body ≠ [] ∧ ∀ b ∈ sec.body,
        b ≠ progressPlaceholder ∧ b ≠ notAvailPlaceholder := by
  have hgen : generateFromTextModel text none =
      some (fallbackDoc
        (if d.company = [] then "Your Company" else ⟨d.company⟩)
        (if d.industry = [] then "Your Industry" else ⟨d.industry⟩)
        ⟨d.location⟩
        (if d.challenges = [] then
          ["Increase online visibility", "Generate more leads", "Improve conversion rates"]
         else d.challenges.map fun l => ⟨l⟩)
        (if d.goals = [] then
          ["Grow website traffic", "Increase qualified leads", "Boost revenue"]
         else d.goals.map fun l => ⟨l⟩)
        bn (fallbackFlags d.services)) := by
    rw [generateFromTextModel, hp]
    rfl
  have hcomp : (if d.company = [] then "Your Company" else (⟨d.company⟩ : String)) ≠
      progressPlaceholder ∧
      (if d.company = [] then "Your Company" else (⟨d.company⟩ : String)) ≠
        notAvailPlaceholder := by
    split
    · exact ⟨by decide, by decide⟩
    · exact hclean d.company (List.mem_cons_self _ _)
  have hch : ∀ s ∈ (if d.challenges = [] then
        ["Increase online visibility", "Generate more leads", "Improve conversion rates"]
       else d.challenges.map fun l => (⟨l⟩ : String)),
      s ≠ progressPlaceholder ∧ s ≠ notAvailPlaceholder := by
    split
    · exact by decide
    · intro s hs
      rcases List.mem_map.mp hs with ⟨l, hl, rfl⟩
      exact hclean l (List.mem_cons_of_mem _ (List.mem_append_left _ hl))
  have hg : ∀ s ∈ (if d.goals = [] then
        ["Grow website traffic", "Increase qualified leads", "Boost revenue"]
       else d.goals.map fun l => (⟨l⟩ : String)),
      s ≠ progressPlaceholder ∧ s ≠ notAvailPlaceholder := by
    split
    · exact by decide
    · intro s hs
      rcases List.mem_map.mp hs with ⟨l, hl, rfl⟩
      exact hclean l (List.mem_cons_of_mem _ (List.mem_append_right _ hl))
  have hmain := fallbackDoc_sections_complete
    (if d.company = [] then "Your Company" else ⟨d.company⟩)
    (if d.industry = [] then "Your Industry" else ⟨d.industry⟩)
    ⟨d.location⟩
    (if d.challenges = [] then
      ["Increase online visibility", "Generate more leads", "Improve conversion rates"]
     else d.challenges.map fun l => ⟨l⟩)
    (if d.goals = [] then
      ["Grow website traffic", "Increase qualified leads", "Boost revenue"]
     else d.goals.map fun l => ⟨l⟩)
    bn (fallbackFlags d.services)
    (fallbackFlags_ne_false d.services) hcomp hch hg
  exact ⟨_, hgen, hmain.1, hmain.2⟩

/-- **C6, witness.** -/
theorem fallback_completeness_amended_witness :
    ∃ doc, generateFromTextModel "Company: Acme\nBudget: $800" none = some doc ∧
      doc.map DocSection.title = fallbackSectionTitles ∧
      ∀ sec ∈ doc, sec.body ≠ [] ∧ ∀ b ∈ sec.body,
        b ≠ progressPlaceholder ∧ b ≠ notAvailPlaceholder :=
  fallback_completeness_amended "Company: Acme\nBudget: $800"
    { company := "Acme".data, budget := "$800".data,
      services := ["Google Ads".data, "SEO".data] } 800
    (by decide) (by decide)

end Proposal
